import Mathlib

/-!
# Verification of the text-to-SQL retry pipeline

A shallow embedding of the core logic of the `textTosql` repository:

* `src/utils/validator.py`   — the pre-pipeline gate (`validate_query`);
* `src/database/manager.py`  — the query executor (`execute_query`);
* `src/agents/nodes.py`      — the four pipeline nodes;
* `src/agents/graph.py`      — the LangGraph routing (`check_execution`) and
  the run loop, modelled as an explicit step relation on a machine state.

The text-generation backend, the database cursor and the scorer are external
collaborators; they are modelled as oracles (`Except`/`Option`-valued inputs,
or call-indexed oracle functions in a `RunConfig`).  All string handling is
restricted to the ASCII fragment actually used by the program.
-/

/-! ## Python string primitives (ASCII fragment) -/

/-- Python's whitespace set for `str.strip()` (ASCII). -/
def pyIsSpace (c : Char) : Bool :=
  c == ' ' || c == '\t' || c == '\n' || c == '\r' || c == '\x0b' || c == '\x0c'

/-- `str.strip()` on a character list: drop whitespace at both ends. -/
def stripChars (l : List Char) : List Char :=
  ((l.dropWhile pyIsSpace).reverse.dropWhile pyIsSpace).reverse

/-- Python `s.strip()`. -/
def pyStrip (s : String) : String := String.mk (stripChars s.data)

/-- Python `s.upper()` (ASCII). -/
def pyUpper (s : String) : String := String.mk (s.data.map Char.toUpper)

/-- Python `s.startswith(p)`. -/
def strStartsWith (s p : String) : Bool := p.data.isPrefixOf s.data

/-- `pat` occurs as a contiguous sublist of the second argument. -/
def containsSubC (pat : List Char) : List Char → Bool
  | [] => pat.isEmpty
  | c :: rest => pat.isPrefixOf (c :: rest) || containsSubC pat rest

/-- Python `pat in s` (substring containment). -/
def containsSubStr (s pat : String) : Bool := containsSubC pat.data s.data

/-- Characters of the list before the first occurrence of `pat`
(the whole list when `pat` does not occur). -/
def takeUntilSub (pat : List Char) : List Char → List Char
  | [] => []
  | c :: rest => if pat.isPrefixOf (c :: rest) then [] else c :: takeUntilSub pat rest

/-- Python `s.replace("sql", "")`: delete every non-overlapping occurrence of
the lowercase substring `sql`, scanning left to right. -/
def removeSql : List Char → List Char
  | 's' :: 'q' :: 'l' :: rest => removeSql rest
  | c :: rest => c :: removeSql rest
  | [] => []

/-! ## Data model (`src/agents/state.py`, executor return values) -/

/-- The second component of the executor's return triple: a fetched row list
for reads, or a status/error message string otherwise.  Python holds both in
one dynamically typed slot; cells are modelled as strings. -/
inductive ExecData where
  | rows (rs : List (List String))
  | msg (s : String)
deriving DecidableEq

/-- Python `len(data)` on the executor's data slot: list length for a row
list, character count for a string. -/
def pyLenData : ExecData → Nat
  | .rows rs => rs.length
  | .msg s => s.length

/-- The triple `(success, data, columns)` returned by
`DatabaseManager.execute_query`. -/
structure ExecResult where
  success : Bool
  data : ExecData
  columns : Option (List String)
deriving DecidableEq

/-- The `results` dict built by `execute_sql_node`
(`\x7b"columns": ..., "rows": ..., "row_count": ...\x7d`).  `columns` is
`none` when the Python value is `None` (the in-node repair path can store
that), `some l` when it is a list. -/
structure ResultSet where
  columns : Option (List String)
  rows : ExecData
  row_count : Nat
deriving DecidableEq

/-- `AgentState` (`src/agents/state.py`), without the append-only `messages`
trace, which no control decision reads. -/
structure NodeState where
  user_query : String
  schema : String
  sql_query : Option String
  results : Option ResultSet
  answer : Option String
  error : Option String
  retry_count : Nat
  evaluation_score : Option Float

/-- A partial-state update returned by a node: `some` marks a key present in
the returned dict, `none` a key absent from it. -/
structure StateUpdate where
  sql_query : Option String
  results : Option ResultSet
  answer : Option String
  error : Option String
  retry_count : Option Nat
  evaluation_score : Option Float

/-- The empty update (node returned a dict without this key). -/
def noUpdate : StateUpdate := ⟨none, none, none, none, none, none⟩

/-- LangGraph merge for one ordinary field: a key present in the update
overrides, an absent key keeps the old value. -/
def overrideOpt (old new : Option α) : Option α :=
  match new with
  | some v => some v
  | none => old

/-- LangGraph merge of a node's partial update into the running state. -/
def applyUpdate (st : NodeState) (u : StateUpdate) : NodeState :=
  { user_query := st.user_query
    schema := st.schema
    sql_query := overrideOpt st.sql_query u.sql_query
    results := overrideOpt st.results u.results
    answer := overrideOpt st.answer u.answer
    error := overrideOpt st.error u.error
    retry_count := u.retry_count.getD st.retry_count
    evaluation_score := overrideOpt st.evaluation_score u.evaluation_score }

/-- Python truthiness of `state.get(key)` for a string-valued key:
falsy iff missing (`None`) or the empty string. -/
def isFalsyStr : Option String → Bool
  | none => true
  | some s => decide (s = "")

/-- Python truthiness of the executor's `columns` value:
falsy iff `None` or the empty list. -/
def pyTruthyCols : Option (List String) → Bool
  | none => false
  | some l => !l.isEmpty

/-! ## Python `str` rendering used in f-strings (`str(data)`, `str(results)`) -/

/-- Python `repr` of a (model) string cell. -/
def pyReprStr (s : String) : String := "'" ++ s ++ "'"

/-- Python `str`/`repr` of a list. -/
def pyReprList (f : α → String) (l : List α) : String :=
  "[" ++ String.intercalate ", " (l.map f) ++ "]"

/-- Python `repr` of a tuple (note the trailing comma of a 1-tuple). -/
def pyReprTuple (f : α → String) (l : List α) : String :=
  match l with
  | [x] => "(" ++ f x ++ ",)"
  | _ => "(" ++ String.intercalate ", " (l.map f) ++ ")"

/-- Python `str(data)` for the executor's data slot, as interpolated into
`f"Execution failed : \x7bdata\x7d"`: a string renders as itself, a row list
as a list of tuples. -/
def pyStrData : ExecData → String
  | .msg s => s
  | .rows rs => pyReprList (pyReprTuple pyReprStr) rs

/-- Python `repr` of the `columns` value (`None` or a list of strings). -/
def pyReprCols : Option (List String) → String
  | none => "None"
  | some l => pyReprList pyReprStr l

/-- Python `str` of a stored results dict. -/
def pyStrResults (rs : ResultSet) : String :=
  "\x7b'columns': " ++ pyReprCols rs.columns ++ ", 'rows': " ++ pyStrData rs.rows ++
    ", 'row_count': " ++ toString rs.row_count ++ "\x7d"

/-- Python `str(state.get("results"))`: `None` renders as the string
`"None"`. -/
def pyStrOptResults : Option ResultSet → String
  | none => "None"
  | some rs => pyStrResults rs

/-! ## Query executor — `DatabaseManager.execute_query`
(`src/database/manager.py`, lines 65–110)

The live cursor is the collaborator: `fetch` models `cursor.fetchall()` and
`description` the column names of `cursor.description`.  This definition is
the non-raising path of `execute_query`; the `except` paths (lines 88–110)
return `(False, str(e), None)` and are represented at the pipeline level by
the `db` oracle of a `RunConfig` producing `success := false` results. -/

structure Cursor where
  fetch : String → List (List String)
  description : String → List String

/-- `query.strip().upper()` starts with one of
`SELECT`, `SHOW`, `DESCRIBE`, `DESC`, `EXPLAIN`. -/
def startsReadKeyword (u : String) : Bool :=
  strStartsWith u "SELECT" || strStartsWith u "SHOW" || strStartsWith u "DESCRIBE" ||
    strStartsWith u "DESC" || strStartsWith u "EXPLAIN"

/-- `DatabaseManager.execute_query`, non-raising path. -/
def execute_query (cur : Cursor) (q : String) : ExecResult :=
  let query_upper := pyUpper (pyStrip q)
  if startsReadKeyword query_upper then
    { success := true, data := ExecData.rows (cur.fetch q), columns := some (cur.description q) }
  else
    { success := true, data := ExecData.msg "Query executed successfully", columns := none }

/-! ## Pre-pipeline gate — `validate_query` (`src/utils/validator.py`) -/

/-- `re.compile(r"^TRUE$", re.IGNORECASE).match(result)`: the anchored match
succeeds on `TRUE` in any letter case, or on that followed by one final
newline (the `$` anchor also matches just before a trailing `"\n"`). -/
def matchTrueAnchored (r : String) : Bool :=
  decide (pyUpper r = "TRUE") || decide (pyUpper r = "TRUE\n")

/-- `re.sub(r"[^A-Z]", "", s)`: keep only the characters `A`–`Z`. -/
def filterAZ (s : String) : String :=
  String.mk (s.data.filter (fun c => decide ('A' ≤ c) && decide (c ≤ 'Z')))

/-- `validate_query` (lines 52–71).  The backend call is the oracle `llmOut`;
`.error` is a raised exception (the function then defaults to entering the
pipeline).  Returns `(is_sql_query, response)`. -/
def validate_query (llmOut : Except String String) : Bool × Option String :=
  match llmOut with
  | .error _ => (true, none)
  | .ok raw =>
    let result := pyStrip raw
    if matchTrueAnchored result then (true, none)
    else if containsSubStr (pyUpper result) "TRUE" && decide (result.length < 10) then
      if decide (filterAZ (pyUpper result) = "TRUE") then (true, none)
      else (false, some result)
    else (false, some result)

/-! ## Pipeline nodes (`src/agents/nodes.py`) -/

/-- The post-processing applied to raw backend output in `generate_sql_node`
(lines 36–38) and to the repair output in `execute_sql_node` (lines 93–95):
`sql = sql.strip()`; if it starts with a fence,
`sql = sql.split("```")[1].replace("sql", "").strip()`.

Under the `startswith("```")` guard the first split field is empty, so
`split("```")[1]` is exactly the text after the leading three backticks and
before the next occurrence of three backticks (to the end of the string when
there is none); `takeUntilSub` computes that directly. -/
def cleanSql (raw : String) : String :=
  let sql := pyStrip raw
  if strStartsWith sql "```" then
    pyStrip (String.mk (removeSql (takeUntilSub "```".data (sql.data.drop 3))))
  else sql

/-- `generate_sql_node` (lines 8–47).  The LLM chain is the oracle: `.ok` is
its raw string output, `.error e` a raised exception with message `e`. -/
def generate_sql_node (llmOut : Except String String) : StateUpdate :=
  match llmOut with
  | .ok raw => { noUpdate with sql_query := some (cleanSql raw) }
  | .error e => { noUpdate with error := some ("SQL generation failed : " ++ e) }

/-- The safety gate of `execute_sql_node` (lines 59–65): uppercase the SQL
(without trimming), reject when it does not start with `SELECT` and contains
a mutation keyword. -/
def dangerous : List String := ["DROP", "DELETE", "UPDATE", "INSERT"]

/-- The gate condition: `not sql_upper.startswith("SELECT") and
any(d in sql_upper for d in dangerous)`. -/
def unsafeSql (sql : String) : Bool :=
  let sql_upper := pyUpper sql
  !(strStartsWith sql_upper "SELECT") && dangerous.any (fun d => containsSubStr sql_upper d)

/-- Observable outcome of one `execute_sql_node` call: the partial update it
returns, the statements it sent to the database (in order), and whether the
repair chain was invoked. -/
structure ExecOut where
  upd : StateUpdate
  executed : List String
  repairCalled : Bool

/-- `execute_sql_node` (lines 50–130).  `db` is the call-indexed executor
oracle (`k` the index of the node's first call), `rep` the repair chain's
raw output (`none` = the chain raised, swallowed by `except: pass`).

Source flow: no/empty SQL fails fast; the safety gate rejects without
executing; otherwise the SQL is executed.  On failure with
`retry_count < 2` the repair output is cleaned and re-executed, returning
results (unguarded `columns`/`rows`/`len(data)`) on success; on its failure
the trailing `if success ... else` sees the **rebound** `success, data` of
the repaired execution.  The success path guards the dict fields on the
truthiness of `columns`; the failure path reports
`"Execution failed : " ++ str(data)` and increments `retry_count`. -/
def execute_sql_node (db : Nat → String → ExecResult) (k : Nat) (rep : Option String)
    (st : NodeState) : ExecOut :=
  if isFalsyStr st.sql_query then
    ⟨{ noUpdate with error := some "No SQL to execute" }, [], false⟩
  else
    let sql := st.sql_query.getD ""
    let retry_count := st.retry_count
    if unsafeSql sql then
      ⟨{ noUpdate with error := some "Unsafe SQL detected" }, [], false⟩
    else
      let r1 := db k sql
      if !r1.success && decide (retry_count < 2) then
        match rep with
        | some raw =>
          let fixed_sql := cleanSql raw
          let r2 := db (k + 1) fixed_sql
          if r2.success then
            ⟨{ noUpdate with
                results := some ⟨r2.columns, r2.data, pyLenData r2.data⟩
                sql_query := some fixed_sql
                retry_count := some (retry_count + 1) },
              [sql, fixed_sql], true⟩
          else
            ⟨{ noUpdate with
                error := some ("Execution failed : " ++ pyStrData r2.data)
                retry_count := some (retry_count + 1) },
              [sql, fixed_sql], true⟩
        | none =>
          ⟨{ noUpdate with
              error := some ("Execution failed : " ++ pyStrData r1.data)
              retry_count := some (retry_count + 1) },
            [sql], true⟩
      else
        if r1.success then
          ⟨{ noUpdate with
              results := some
                ⟨some (if pyTruthyCols r1.columns then r1.columns.getD [] else []),
                  if pyTruthyCols r1.columns then r1.data else ExecData.rows [],
                  if pyTruthyCols r1.columns then pyLenData r1.data else 0⟩ },
            [sql], false⟩
        else
          ⟨{ noUpdate with
              error := some ("Execution failed : " ++ pyStrData r1.data)
              retry_count := some (retry_count + 1) },
            [sql], false⟩

/-- `format_answer_node` (lines 133–190).  A set (truthy) `error`
short-circuits; absent `results` gives a fixed answer; otherwise the LLM
output is the answer, with the deterministic row-count fallback on a raised
exception.  The prompt text built from the rows is consumed only by the
oracle and is not modelled. -/
def format_answer_node (llmOut : Except String String) (st : NodeState) : StateUpdate :=
  if !(isFalsyStr st.error) then
    { noUpdate with answer := some ("I encountered an error " ++ st.error.getD "") }
  else
    match st.results with
    | none => { noUpdate with answer := some "No results to display" }
    | some rs =>
      match llmOut with
      | .ok a => { noUpdate with answer := some a }
      | .error _ =>
        { noUpdate with answer := some ("Results " ++ toString rs.row_count ++ " rows found") }

/-- `evaluate_node` (lines 193–231).  Skips unless both `answer` and
`sql_query` are truthy; otherwise builds the reference string and invokes
the scorer, whose failure is swallowed.  The second component instruments
the reference string handed to the scorer (`none` when evaluation was
skipped before building it). -/
def evaluate_node (scorer : Except String Float) (st : NodeState) :
    StateUpdate × Option String :=
  if isFalsyStr st.answer || isFalsyStr st.sql_query then (noUpdate, none)
  else
    let reference := "SQL: " ++ st.sql_query.getD "" ++
      "\nResults Retrieved after execution of Query: " ++ pyStrOptResults st.results
    match scorer with
    | .ok score => ({ noUpdate with evaluation_score := some score }, some reference)
    | .error _ => (noUpdate, some reference)

/-! ## Pipeline controller (`src/agents/graph.py`) -/

/-- The graph nodes, plus the terminal `done` (LangGraph `END`). -/
inductive GNode where
  | generate_sql
  | execute_sql
  | format_answer
  | evaluate
  | done
deriving DecidableEq

/-- One run's collaborators: call-indexed oracles for the generator chain,
the repair chain and the executor, plus the formatter chain and the scorer
(each called at most once per run). -/
structure RunConfig where
  genOuts : Nat → Except String String
  repairOuts : Nat → Option String
  db : Nat → String → ExecResult
  fmtOut : Except String String
  scorer : Except String Float

/-- The machine threaded through the run: current node, merged state, and
instrumentation counters (number of generator calls, repair-chain calls,
executor calls, and the statements sent to the database). -/
structure Machine where
  node : GNode
  st : NodeState
  genCalls : Nat
  repairCalls : Nat
  dbCalls : Nat
  execLog : List String

/-- `check_execution` (graph.py lines 24–27): route back to `generate_sql`
iff `error` is truthy and `retry_count < 2`, else to `format_answer`. -/
def check_execution (st : NodeState) : Bool :=
  !(isFalsyStr st.error) && decide (st.retry_count < 2)

/-- One LangGraph transition: run the current node, merge its partial
update, and follow the (conditional) edge. -/
def step (cfg : RunConfig) (m : Machine) : Machine :=
  match m.node with
  | .generate_sql =>
    { m with
      node := .execute_sql
      st := applyUpdate m.st (generate_sql_node (cfg.genOuts m.genCalls))
      genCalls := m.genCalls + 1 }
  | .execute_sql =>
    let o := execute_sql_node cfg.db m.dbCalls (cfg.repairOuts m.repairCalls) m.st
    let st2 := applyUpdate m.st o.upd
    { m with
      node := if check_execution st2 then .generate_sql else .format_answer
      st := st2
      dbCalls := m.dbCalls + o.executed.length
      repairCalls := m.repairCalls + (if o.repairCalled then 1 else 0)
      execLog := m.execLog ++ o.executed }
  | .format_answer =>
    { m with
      node := .evaluate
      st := applyUpdate m.st (format_answer_node cfg.fmtOut m.st) }
  | .evaluate =>
    { m with
      node := .done
      st := applyUpdate m.st (evaluate_node cfg.scorer m.st).1 }
  | .done => m

/-- Iterate `step` `n` times. -/
def run (cfg : RunConfig) : Nat → Machine → Machine
  | 0, m => m
  | n + 1, m => run cfg n (step cfg m)

/-- The initial pipeline state handed in by the caller
(`ui.py`: `user_query`, `schema`, `retry_count = 0`). -/
def initState (q schema : String) : NodeState :=
  ⟨q, schema, none, none, none, none, 0, none⟩

/-- A fresh run starts at `generate_sql` with zeroed counters. -/
def initMachine (q schema : String) : Machine :=
  ⟨.generate_sql, initState q schema, 0, 0, 0, []⟩

/-! ## Concrete collaborators used by the closed theorems -/

/-- A database cursor that serves one row with one column. -/
def dummyCur : Cursor := ⟨fun _ => [["42"]], fun _ => ["n"]⟩

/-- An executor oracle behaving like a healthy `execute_query` on every call. -/
def dbAlwaysRead : Nat → String → ExecResult := fun _ q => execute_query dummyCur q

/-- An executor oracle whose first call fails and whose later calls behave
like a healthy `execute_query`. -/
def dbFailOnce : Nat → String → ExecResult := fun k q =>
  if k = 0 then ⟨false, ExecData.msg "Unknown column", none⟩ else execute_query dummyCur q

/-- A pipeline state entering `execute_sql_node` with the given SQL. -/
def stWith (s : String) : NodeState := { initState "q" "s" with sql_query := some s }

/-- The canonical initial machine of the closed run theorems. -/
def initM : Machine := initMachine "q" "s"

/-- Collaborators for an all-failing executor: the generator and repair
chains always return gate-passing SQL, every database call fails. -/
def cfgAllFail : RunConfig :=
  { genOuts := fun _ => Except.ok "SELECT A"
    repairOuts := fun _ => some "SELECT B"
    db := fun _ _ => ⟨false, ExecData.msg "table missing", none⟩
    fmtOut := Except.ok "unused"
    scorer := Except.ok 0.5 }

/-- Collaborators for the stale-error scenario: database calls 0–2 fail
(messages `e1`, `e2`, `e3`), call 3 — the re-execution of the second repair —
succeeds as a read. -/
def cfgStale : RunConfig :=
  { genOuts := fun _ => Except.ok "SELECT A"
    repairOuts := fun i => if i = 0 then some "SELECT B" else some "SELECT D"
    db := fun k q =>
      if k = 3 then execute_query dummyCur q
      else ⟨false, ExecData.msg (if k = 0 then "e1" else if k = 1 then "e2" else "e3"), none⟩
    fmtOut := Except.ok "unused"
    scorer := Except.ok 0.5 }

/-- Variant of `cfgStale` where the first attempt fails (direct call and
repair call) and every later database call succeeds as a read. -/
def cfgStaleLoop : RunConfig :=
  { cfgStale with
    db := fun k q =>
      if 2 ≤ k then execute_query dummyCur q
      else ⟨false, ExecData.msg (if k = 0 then "e1" else "e2"), none⟩ }

/-- Collaborators where the generation backend raises on every call. -/
def cfgGenFail : RunConfig := { cfgAllFail with genOuts := fun _ => Except.error "boom" }

/-- Loop invariant for `cfgStaleLoop` from step 4 on: the machine bounces
between `generate_sql` and `execute_sql` with the stale error and
`retry_count = 1` frozen in state, executor calls already past index 2. -/
def C2Inv (m : Machine) : Prop :=
  (m.node = GNode.generate_sql ∨ m.node = GNode.execute_sql) ∧
    m.st.sql_query = some "SELECT A" ∧
    m.st.error = some "Execution failed : e2" ∧
    m.st.retry_count = 1 ∧ 2 ≤ m.dbCalls

/-- Loop invariant for `cfgGenFail`: the machine bounces between
`generate_sql` and `execute_sql` with no SQL ever produced and
`retry_count` stuck at 0. -/
def C4Inv (m : Machine) : Prop :=
  (m.node = GNode.generate_sql ∨ m.node = GNode.execute_sql) ∧
    m.st.sql_query = none ∧ m.st.retry_count = 0

/-! ## Spec-side rules, for comparison with the code -/

/-- Modelled from the claim C8 wording, for refutation: output accepted as
"is a database query" iff, after trimming, it is exactly the literal token
`TRUE` (case-insensitive), or it contains `TRUE` case-insensitively and is
under 10 characters after stripping all non-letter characters. -/
def specGateAccepts (raw : String) : Bool :=
  let r := pyStrip raw
  decide (pyUpper r = "TRUE") ||
    (containsSubStr (pyUpper r) "TRUE" &&
      decide ((String.mk (r.data.filter Char.isAlpha)).length < 10))

/-- The amended matching rule, matching the code: accepted iff the trimmed
output matches the anchored case-insensitive `TRUE` pattern, or it contains
`TRUE` case-insensitively, its trimmed length is under 10, and uppercasing
it and deleting every character outside `A`–`Z` leaves exactly `TRUE`. -/
def amendedGateAccepts (raw : String) : Bool :=
  let r := pyStrip raw
  matchTrueAnchored r ||
    ((containsSubStr (pyUpper r) "TRUE" && decide (r.length < 10)) &&
      decide (filterAZ (pyUpper r) = "TRUE"))

/-! ## Helper lemmas -/

lemma data_append (s t : String) : (s ++ t).data = s.data ++ t.data := by
  cases s; cases t; rfl

lemma prefixed_ne_empty (p s : String) (hp : p.data.length ≠ 0) : ¬(p ++ s = "") := by
  intro h
  have hd := congrArg String.data h
  rw [data_append] at hd
  have hlen := congrArg List.length hd
  rw [List.length_append] at hlen
  rw [show (("" : String).data).length = 0 from rfl] at hlen
  omega

lemma isFalsy_execFailed (s : String) :
    isFalsyStr (some ("Execution failed : " ++ s)) = false := by
  simp only [isFalsyStr, decide_eq_false_iff_not]
  exact prefixed_ne_empty _ s (by decide)

lemma isFalsy_encountered (s : String) :
    isFalsyStr (some ("I encountered an error " ++ s)) = false := by
  simp only [isFalsyStr, decide_eq_false_iff_not]
  exact prefixed_ne_empty _ s (by decide)

lemma step_done (cfg : RunConfig) (m : Machine) (h : m.node = GNode.done) :
    step cfg m = m := by
  unfold step
  rw [h]

lemma run_done (cfg : RunConfig) (n : Nat) (m : Machine) (h : m.node = GNode.done) :
    run cfg n m = m := by
  induction n generalizing m with
  | zero => rfl
  | succ n ih =>
    show run cfg n (step cfg m) = m
    rw [step_done cfg m h]
    exact ih m h

lemma run_add (cfg : RunConfig) (a b : Nat) (m : Machine) :
    run cfg (b + a) m = run cfg b (run cfg a m) := by
  induction a generalizing m with
  | zero => rfl
  | succ a ih => exact ih (step cfg m)

lemma run_succ (cfg : RunConfig) (n : Nat) (m : Machine) :
    run cfg (n + 1) m = step cfg (run cfg n m) := by
  rw [Nat.add_comm]
  exact run_add cfg n 1 m

/-! ## Claim C1 — the execution-node safety gate -/

/-- Claim C1 counterexample: the SQL string `" SELECT * FROM DELETED"` has a
trimmed, uppercased text beginning with `SELECT`, yet the gate in the
execution node rejects it with `error = "Unsafe SQL detected"` and does not
execute it (the gate uppercases without trimming, so the leading space
defeats the `SELECT` prefix test while `DELETED` contains `DELETE`). -/
theorem c1_gate_counterexample :
    strStartsWith (pyUpper (pyStrip " SELECT * FROM DELETED")) "SELECT" = true ∧
    (execute_sql_node dbAlwaysRead 0 none (stWith " SELECT * FROM DELETED")).upd.error =
      some "Unsafe SQL detected" ∧
    (execute_sql_node dbAlwaysRead 0 none (stWith " SELECT * FROM DELETED")).executed = [] := by
  refine ⟨by decide, by decide, by decide⟩

/-- Claim C1 (amended): for every SQL string whose **uppercased (untrimmed)**
text begins with `SELECT`, the gate never rejects it — the statement is sent
to the executor; for every SQL string whose uppercased text does not begin
with `SELECT` and that contains `DROP`, `DELETE`, `UPDATE` or `INSERT` as a
case-insensitive substring, the execution node returns
`error = "Unsafe SQL detected"` and sends nothing to the database. -/
theorem c1_gate_amended (db : Nat → String → ExecResult) (k : Nat) (rep : Option String)
    (st : NodeState) (sql : String) (hsql : st.sql_query = some sql) (hne : sql ≠ "") :
    (strStartsWith (pyUpper sql) "SELECT" = true →
      (execute_sql_node db k rep st).executed.head? = some sql) ∧
    (strStartsWith (pyUpper sql) "SELECT" = false →
      (dangerous.any fun d => containsSubStr (pyUpper sql) d) = true →
      (execute_sql_node db k rep st).upd.error = some "Unsafe SQL detected" ∧
        (execute_sql_node db k rep st).executed = []) := by
  have hfalsy : isFalsyStr (some sql) = false := by simp [isFalsyStr, hne]
  constructor
  · intro hsel
    have hgate : unsafeSql sql = false := by simp [unsafeSql, hsel]
    unfold execute_sql_node
    rw [hsql]
    simp only [hfalsy, hgate, Option.getD_some, Bool.false_eq_true, if_false]
    split
    · split
      · split <;> rfl
      · rfl
    · split <;> rfl
  · intro hsel hdang
    have hgate : unsafeSql sql = true := by simp [unsafeSql, hsel, hdang]
    unfold execute_sql_node
    rw [hsql]
    simp [hfalsy, hgate]

/-- Claim C1 amended witness: both branches at concrete inputs —
`"SELECT * FROM DELETED"` is executed, `" DELETE FROM t"` is rejected
without execution. -/
theorem c1_gate_amended_witness :
    (execute_sql_node dbAlwaysRead 0 none (stWith "SELECT * FROM DELETED")).executed.head? =
      some "SELECT * FROM DELETED" ∧
    (execute_sql_node dbAlwaysRead 0 none (stWith " DELETE FROM t")).upd.error =
      some "Unsafe SQL detected" ∧
    (execute_sql_node dbAlwaysRead 0 none (stWith " DELETE FROM t")).executed = [] := by
  refine ⟨?_, ?_, ?_⟩
  · exact (c1_gate_amended dbAlwaysRead 0 none (stWith "SELECT * FROM DELETED")
      "SELECT * FROM DELETED" rfl (by decide)).1 (by decide)
  · exact ((c1_gate_amended dbAlwaysRead 0 none (stWith " DELETE FROM t")
      " DELETE FROM t" rfl (by decide)).2 (by decide) (by decide)).1
  · exact ((c1_gate_amended dbAlwaysRead 0 none (stWith " DELETE FROM t")
      " DELETE FROM t" rfl (by decide)).2 (by decide) (by decide)).2

/-! ## Claim C5 — executor read/write classification -/

/-- Claim C5: for every SQL string whose trimmed, uppercased text starts with
one of `SELECT`, `SHOW`, `DESCRIBE`, `DESC`, `EXPLAIN`, a non-raising
execution returns success with the fetched rows and non-null column names;
for every other statement it returns success with the message
`"Query executed successfully"` and null columns. -/
theorem c5_executor_classification (cur : Cursor) (q : String) :
    (startsReadKeyword (pyUpper (pyStrip q)) = true →
      execute_query cur q =
        ⟨true, ExecData.rows (cur.fetch q), some (cur.description q)⟩) ∧
    (startsReadKeyword (pyUpper (pyStrip q)) = false →
      execute_query cur q = ⟨true, ExecData.msg "Query executed successfully", none⟩) := by
  constructor <;> intro h <;> simp [execute_query, h]

/-- Claim C5 witness: `"SELECT 1"` is classified as a read (non-null
columns), `"UPDATE t SET x=1"` as a write (success message, null columns). -/
theorem c5_executor_classification_witness :
    execute_query dummyCur "SELECT 1" = ⟨true, ExecData.rows [["42"]], some ["n"]⟩ ∧
    execute_query dummyCur "UPDATE t SET x=1" =
      ⟨true, ExecData.msg "Query executed successfully", none⟩ := by
  constructor
  · exact (c5_executor_classification dummyCur "SELECT 1").1 (by decide)
  · exact (c5_executor_classification dummyCur "UPDATE t SET x=1").2 (by decide)

/-! ## Claim C9 — repaired SQL bypasses the safety gate -/

/-- Claim C9: the mutation-keyword gate is applied only to the SQL present in
state on entry; a repair output `"DROP TABLE students"` — which the gate
condition itself flags as unsafe — is executed directly against the
database, with no rejection. -/
theorem c9_repair_bypasses_gate :
    unsafeSql "DROP TABLE students" = true ∧
    (execute_sql_node dbFailOnce 0 (some "DROP TABLE students")
        (stWith "SELECT * FROM t")).executed =
      ["SELECT * FROM t", "DROP TABLE students"] ∧
    (execute_sql_node dbFailOnce 0 (some "DROP TABLE students")
        (stWith "SELECT * FROM t")).upd.error = none := by
  refine ⟨by decide, by decide, by decide⟩

/-! ## Claim C7 — fenced-code cleanup -/

/-- Claim C7 counterexample: on raw output
`"```sql\nSELECT * FROM sqlite_logs\n```"` the cleanup does **not** leave the
SQL text of the first fenced segment unchanged after removing a leading
language tag: `.replace("sql", "")` deletes every occurrence of `sql`, so
the identifier `sqlite_logs` is mangled to `ite_logs`. -/
theorem c7_fence_counterexample :
    cleanSql "```sql\nSELECT * FROM sqlite_logs\n```" = "SELECT * FROM ite_logs" ∧
    (cleanSql "```sql\nSELECT * FROM sqlite_logs\n```" == "SELECT * FROM sqlite_logs") =
      false := by
  refine ⟨by decide, by decide⟩

/-- Claim C7 (amended): the post-processing strips surrounding whitespace
and, when the stripped raw output begins with a fence, yields the first
fenced segment with **every** occurrence of the lowercase substring `sql`
removed (not just a leading language tag) and whitespace stripped; raw
output not beginning with a fence is only stripped.  In particular
`"```sql\nSELECT * FROM t\n```"` yields `"SELECT * FROM t"`. -/
theorem c7_fence_amended :
    cleanSql "```sql\nSELECT * FROM t\n```" = "SELECT * FROM t" ∧
    (∀ raw, strStartsWith (pyStrip raw) "```" = false → cleanSql raw = pyStrip raw) ∧
    (∀ raw, strStartsWith (pyStrip raw) "```" = true →
      cleanSql raw =
        pyStrip (String.mk (removeSql (takeUntilSub "```".data ((pyStrip raw).data.drop 3))))) := by
  refine ⟨by decide, ?_, ?_⟩ <;> intro raw h <;> simp [cleanSql, h]

/-- Claim C7 amended witness: the non-fence branch at `" SELECT 1 "` and the
fence branch at `"```SELECT 2```"`, via the amended theorem. -/
theorem c7_fence_amended_witness :
    cleanSql " SELECT 1 " = pyStrip " SELECT 1 " ∧
    cleanSql "```SELECT 2```" =
      pyStrip (String.mk (removeSql
        (takeUntilSub "```".data ((pyStrip "```SELECT 2```").data.drop 3)))) := by
  exact ⟨c7_fence_amended.2.1 " SELECT 1 " (by decide),
    c7_fence_amended.2.2 "```SELECT 2```" (by decide)⟩

/-! ## Claim C8 — pre-pipeline gate matching rule -/

/-- Claim C8 counterexample: backend output `"TRUE DAT"` contains `TRUE`
case-insensitively and has 7 characters after stripping non-letters, so the
claimed rule accepts it, but `validate_query` returns
`(false, "TRUE DAT")` — the code requires the under-10 bound **before**
stripping and requires the stripped text to equal `TRUE` exactly.  Also, on
other output the code returns the **trimmed** output, not the output
itself: `" hello "` comes back as `"hello"`. -/
theorem c8_gate_counterexample :
    specGateAccepts "TRUE DAT" = true ∧
    validate_query (Except.ok "TRUE DAT") = (false, some "TRUE DAT") ∧
    validate_query (Except.ok " hello ") = (false, some "hello") ∧
    (("hello" : String) == " hello ") = false := by
  refine ⟨by decide, by decide, by decide, by decide⟩

/-- Claim C8 (amended): `validate_query` returns `(true, null)` exactly when
the trimmed backend output matches the anchored case-insensitive `TRUE`
pattern, or — as a fallback — contains `TRUE` case-insensitively, has
trimmed length under 10, and equals exactly `TRUE` after uppercasing and
stripping all characters other than `A`–`Z`; for any other backend output it
returns `(false, the trimmed output)`; any backend failure during validation
returns `(true, null)`. -/
theorem c8_gate_amended :
    (∀ e, validate_query (Except.error e) = (true, none)) ∧
    (∀ raw, validate_query (Except.ok raw) =
      if amendedGateAccepts raw then (true, none) else (false, some (pyStrip raw))) := by
  constructor
  · intro e; rfl
  · intro raw
    have h1 := Bool.eq_false_or_eq_true (matchTrueAnchored (pyStrip raw))
    have h2 := Bool.eq_false_or_eq_true
      (containsSubStr (pyUpper (pyStrip raw)) "TRUE" && decide ((pyStrip raw).length < 10))
    have h3 := Bool.eq_false_or_eq_true (decide (filterAZ (pyUpper (pyStrip raw)) = "TRUE"))
    rcases h1 with h1 | h1 <;> rcases h2 with h2 | h2 <;> rcases h3 with h3 | h3 <;>
      simp [validate_query, amendedGateAccepts, h1, h2, h3]


/-! ## Claim C6 — ResultSet shape invariant -/

/-- Claim C6 counterexample: the in-node repair-and-re-execute path stores
the executor's raw return unguarded.  With the first execution failing and
the repair output `"UPDATE t SET x = 1"` (not a read) succeeding, the stored
ResultSet has null (not empty) columns, the success-message string in the
rows slot, and `row_count = 27`, not 0. -/
theorem c6_resultset_counterexample :
    startsReadKeyword (pyUpper (pyStrip "UPDATE t SET x = 1")) = false ∧
    (execute_sql_node dbFailOnce 0 (some "UPDATE t SET x = 1")
        (stWith "SELECT * FROM t")).upd.results =
      some ⟨none, ExecData.msg "Query executed successfully", 27⟩ ∧
    ((execute_sql_node dbFailOnce 0 (some "UPDATE t SET x = 1")
        (stWith "SELECT * FROM t")).upd.results.map ResultSet.row_count == some 0) =
      false := by
  refine ⟨by decide, by decide, by decide⟩

/-- Claim C6 (amended): every ResultSet stored by the execution node has
`row_count` equal to the Python length of its `rows` slot (list length, or
character count when the repair path stored the write-success message
string); and on the **direct** success path (gate passed and the first
execution succeeded) a null-columns (non-read) result is stored as empty
columns, empty rows and `row_count = 0`.  The repair path instead stores the
executor's raw data unguarded. -/
theorem c6_resultset_amended :
    (∀ (db : Nat → String → ExecResult) (k : Nat) (rep : Option String) (st : NodeState)
      (rs : ResultSet), (execute_sql_node db k rep st).upd.results = some rs →
        rs.row_count = pyLenData rs.rows) ∧
    (∀ (db : Nat → String → ExecResult) (k : Nat) (rep : Option String) (st : NodeState)
      (sql : String), st.sql_query = some sql → sql ≠ "" → unsafeSql sql = false →
        (db k sql).success = true → (db k sql).columns = none →
        (execute_sql_node db k rep st).upd.results =
          some ⟨some [], ExecData.rows [], 0⟩) := by
  constructor
  · intro db k rep st rs h
    simp only [execute_sql_node] at h
    repeat' split at h
    all_goals simp only [noUpdate, Option.some.injEq] at h
    all_goals try exact Option.noConfusion h
    all_goals subst h
    all_goals rfl
  · intro db k rep st sql hsql hne hsafe hsucc hcols
    have hfalsy : isFalsyStr (some sql) = false := by simp [isFalsyStr, hne]
    simp only [execute_sql_node]
    rw [hsql]
    simp [hfalsy, hsafe, hsucc, hcols, pyTruthyCols]

/-- Claim C6 amended witness: both parts at concrete inputs — the
counterexample's repair-path ResultSet satisfies
`row_count = pyLenData rows`, and a direct gate-passing write-success
(`"CREATE TABLE t (x INT)"`) stores the empty ResultSet. -/
theorem c6_resultset_amended_witness :
    (27 : Nat) = pyLenData (ExecData.msg "Query executed successfully") ∧
    (execute_sql_node dbAlwaysRead 0 none (stWith "CREATE TABLE t (x INT)")).upd.results =
      some ⟨some [], ExecData.rows [], 0⟩ := by
  constructor
  · exact c6_resultset_amended.1 dbFailOnce 0 (some "UPDATE t SET x = 1")
      (stWith "SELECT * FROM t") ⟨none, ExecData.msg "Query executed successfully", 27⟩
      (by decide)
  · exact c6_resultset_amended.2 dbAlwaysRead 0 none (stWith "CREATE TABLE t (x INT)")
      "CREATE TABLE t (x INT)" rfl (by decide) (by decide) (by decide) (by decide)

/-! ## Claim C3 — retry-bound termination -/

lemma exec_node_allfail (db : Nat → String → ExecResult)
    (hdb : ∀ k q, (db k q).success = false) (k : Nat) (rep : Option String)
    (st : NodeState) (sql : String) (hsql : st.sql_query = some sql) (hne : sql ≠ "")
    (hsafe : unsafeSql sql = false) (hrc : st.retry_count < 2) :
    ∃ d ex, execute_sql_node db k rep st =
      ⟨{ noUpdate with
          error := some ("Execution failed : " ++ d)
          retry_count := some (st.retry_count + 1) }, ex, true⟩ := by
  have hfalsy : isFalsyStr (some sql) = false := by simp [isFalsyStr, hne]
  rcases rep with _ | raw
  · refine ⟨pyStrData (db k sql).data, [sql], ?_⟩
    simp only [execute_sql_node]
    rw [hsql]
    simp [hfalsy, hsafe, hdb, hrc]
  · refine ⟨pyStrData (db (k + 1) (cleanSql raw)).data, [sql, cleanSql raw], ?_⟩
    simp only [execute_sql_node]
    rw [hsql]
    simp [hfalsy, hsafe, hdb, hrc]

/-- Claim C3: when the generator and repair chains always return gate-passing
(nonempty, gate-clean) SQL and the executor fails on every call, the run
terminates: after 6 steps the machine is at `done` (and stays there), the
terminal state carries an execution error, `retry_count` equals 2 and never
exceeds 2 at any step, and exactly 2 generator calls and 2 repair-chain
calls were made. -/
theorem c3_retry_bound_termination (cfg : RunConfig) (q s : String)
    (hgen : ∀ i, ∃ r, cfg.genOuts i = Except.ok r ∧ cleanSql r ≠ "" ∧
      unsafeSql (cleanSql r) = false)
    (hdb : ∀ k q', (cfg.db k q').success = false) :
    (run cfg 6 (initMachine q s)).node = GNode.done ∧
    (∃ e, (run cfg 6 (initMachine q s)).st.error = some ("Execution failed : " ++ e)) ∧
    (run cfg 6 (initMachine q s)).st.retry_count = 2 ∧
    (run cfg 6 (initMachine q s)).genCalls = 2 ∧
    (run cfg 6 (initMachine q s)).repairCalls = 2 ∧
    (∀ n, (run cfg n (initMachine q s)).st.retry_count ≤ 2) ∧
    (∀ n, run cfg (6 + n) (initMachine q s) = run cfg 6 (initMachine q s)) := by
  obtain ⟨r0, hg0, hne0, hsafe0⟩ := hgen 0
  obtain ⟨r1, hg1, hne1, hsafe1⟩ := hgen 1
  have h1 : run cfg 1 (initMachine q s) =
      ⟨GNode.execute_sql, ⟨q, s, some (cleanSql r0), none, none, none, 0, none⟩,
        1, 0, 0, []⟩ := by
    show step cfg (initMachine q s) = _
    simp [step, initMachine, initState, generate_sql_node, hg0, applyUpdate, overrideOpt,
      noUpdate]
  obtain ⟨d0, ex0, hx0⟩ := exec_node_allfail cfg.db hdb 0 (cfg.repairOuts 0)
    ⟨q, s, some (cleanSql r0), none, none, none, 0, none⟩ (cleanSql r0) rfl hne0 hsafe0
    (by norm_num)
  have h2 : run cfg 2 (initMachine q s) =
      ⟨GNode.generate_sql, ⟨q, s, some (cleanSql r0), none, none,
        some ("Execution failed : " ++ d0), 1, none⟩, 1, 1, ex0.length, ex0⟩ := by
    rw [run_succ, h1]
    simp [step, hx0, applyUpdate, overrideOpt, noUpdate, check_execution, isFalsy_execFailed]
  have h3 : run cfg 3 (initMachine q s) =
      ⟨GNode.execute_sql, ⟨q, s, some (cleanSql r1), none, none,
        some ("Execution failed : " ++ d0), 1, none⟩, 2, 1, ex0.length, ex0⟩ := by
    rw [run_succ, h2]
    simp [step, generate_sql_node, hg1, applyUpdate, overrideOpt, noUpdate]
  obtain ⟨d1, ex1, hx1⟩ := exec_node_allfail cfg.db hdb ex0.length (cfg.repairOuts 1)
    ⟨q, s, some (cleanSql r1), none, none, some ("Execution failed : " ++ d0), 1, none⟩
    (cleanSql r1) rfl hne1 hsafe1 (by norm_num)
  have h4 : run cfg 4 (initMachine q s) =
      ⟨GNode.format_answer, ⟨q, s, some (cleanSql r1), none, none,
        some ("Execution failed : " ++ d1), 2, none⟩, 2, 2,
        ex0.length + ex1.length, ex0 ++ ex1⟩ := by
    rw [run_succ, h3]
    simp [step, hx1, applyUpdate, overrideOpt, noUpdate, check_execution, isFalsy_execFailed]
  have h5 : run cfg 5 (initMachine q s) =
      ⟨GNode.evaluate, ⟨q, s, some (cleanSql r1), none,
        some ("I encountered an error " ++ ("Execution failed : " ++ d1)),
        some ("Execution failed : " ++ d1), 2, none⟩, 2, 2,
        ex0.length + ex1.length, ex0 ++ ex1⟩ := by
    rw [run_succ, h4]
    simp [step, format_answer_node, isFalsy_execFailed, applyUpdate, overrideOpt, noUpdate]
  have h6core : (run cfg 6 (initMachine q s)).node = GNode.done ∧
      (run cfg 6 (initMachine q s)).st.error = some ("Execution failed : " ++ d1) ∧
      (run cfg 6 (initMachine q s)).st.retry_count = 2 ∧
      (run cfg 6 (initMachine q s)).genCalls = 2 ∧
      (run cfg 6 (initMachine q s)).repairCalls = 2 := by
    rw [run_succ, h5]
    have hia := prefixed_ne_empty "I encountered an error " ("Execution failed : " ++ d1)
      (by decide)
    cases hsc : cfg.scorer <;>
      simp [step, evaluate_node, isFalsyStr, hne1, hia, hsc, applyUpdate,
        overrideOpt, noUpdate]
  have hstab : ∀ n, run cfg (6 + n) (initMachine q s) = run cfg 6 (initMachine q s) := by
    intro n
    rw [Nat.add_comm, run_add]
    exact run_done cfg n _ h6core.1
  refine ⟨h6core.1, ⟨d1, h6core.2.1⟩, h6core.2.2.1, h6core.2.2.2.1, h6core.2.2.2.2, ?_, hstab⟩
  intro n
  rcases Nat.lt_or_ge n 6 with hn | hn
  · interval_cases n
    · norm_num [run, initMachine, initState]
    · rw [h1]; norm_num
    · rw [h2]; norm_num
    · rw [h3]; norm_num
    · rw [h4]
    · rw [h5]
  · obtain ⟨k, rfl⟩ := Nat.exists_eq_add_of_le hn
    rw [hstab k, h6core.2.2.1]

/-- Claim C3 witness: the concrete all-failing configuration `cfgAllFail`
reaches `done` in 6 steps with `retry_count = 2` and 2 + 2 generation calls,
via the universal theorem. -/
theorem c3_retry_bound_termination_witness :
    (run cfgAllFail 6 initM).node = GNode.done ∧
    (run cfgAllFail 6 initM).st.retry_count = 2 ∧
    (run cfgAllFail 6 initM).genCalls = 2 ∧
    (run cfgAllFail 6 initM).repairCalls = 2 := by
  have h := c3_retry_bound_termination cfgAllFail "q" "s"
    (fun i => ⟨"SELECT A", rfl, by decide, by decide⟩) (fun k q' => rfl)
  exact ⟨h.1, h.2.2.1, h.2.2.2.1, h.2.2.2.2.1⟩

/-! ## Claim C4 — all-failure terminal state -/

lemma c4_inv_step (cfg : RunConfig) (hgen : ∀ i, ∃ e, cfg.genOuts i = Except.error e)
    (m : Machine) (h : C4Inv m) : C4Inv (step cfg m) := by
  obtain ⟨hnode, hsql, hrc⟩ := h
  rcases hnode with hv | hv
  · obtain ⟨e, he⟩ := hgen m.genCalls
    simp [step, hv, C4Inv, generate_sql_node, he, applyUpdate, overrideOpt, noUpdate,
      hsql, hrc]
  · simp [step, hv, C4Inv, execute_sql_node, isFalsyStr, hsql, hrc, applyUpdate,
      overrideOpt, noUpdate, check_execution]

/-- Claim C4 (divergence): when the generation backend fails on every call,
the pipeline does **not** reach the terminal `done` state: the
`"No SQL to execute"` fast-fail path never increments `retry_count`, so
`check_execution` routes back to `generate_sql` forever. -/
theorem c4_genfail_no_termination (cfg : RunConfig) (q s : String)
    (hgen : ∀ i, ∃ e, cfg.genOuts i = Except.error e) :
    ∀ n, (run cfg n (initMachine q s)).node = GNode.generate_sql ∨
      (run cfg n (initMachine q s)).node = GNode.execute_sql := by
  have hinv : ∀ n m, C4Inv m → C4Inv (run cfg n m) := by
    intro n
    induction n with
    | zero => exact fun m h => h
    | succ n ih => exact fun m h => ih (step cfg m) (c4_inv_step cfg hgen m h)
  intro n
  have h0 : C4Inv (initMachine q s) := ⟨Or.inl rfl, rfl, rfl⟩
  exact (hinv n (initMachine q s) h0).1

/-- Claim C4 witness: the concrete always-failing generator configuration is
still inside the generate/execute loop (hence not at `done`) after 9 steps,
via the universal theorem. -/
theorem c4_genfail_no_termination_witness :
    (run cfgGenFail 9 initM).node = GNode.generate_sql ∨
      (run cfgGenFail 9 initM).node = GNode.execute_sql :=
  c4_genfail_no_termination cfgGenFail "q" "s" (fun _ => ⟨"boom", rfl⟩) 9

/-! ## Claim C2 — stale-error supersession -/

lemma c2_inv_step (m : Machine) (h : C2Inv m) : C2Inv (step cfgStaleLoop m) := by
  obtain ⟨hnode, hsql, herr, hrc, hdb⟩ := h
  have hcl : cleanSql "SELECT A" = "SELECT A" := by decide
  rcases hnode with hv | hv
  · simp [step, hv, C2Inv, cfgStaleLoop, cfgStale, generate_sql_node, hcl, applyUpdate,
      overrideOpt, noUpdate, hsql, herr, hrc, hdb]
  · have hq : execute_query dummyCur "SELECT A" =
        ⟨true, ExecData.rows [["42"]], some ["n"]⟩ := by decide
    have hfals : isFalsyStr (some "SELECT A") = false := by decide
    have hef : isFalsyStr (some "Execution failed : e2") = false := by decide
    have hu : unsafeSql "SELECT A" = false := by decide
    simp [step, hv, C2Inv, execute_sql_node, cfgStaleLoop, cfgStale, hsql, herr, hrc,
      hdb, hq, hfals, hef, hu, applyUpdate, overrideOpt, noUpdate, check_execution]
    omega

/-- Claim C2 (divergence): an execution failure's `error` is never cleared by
a later success.  Under `cfgStale`, the second attempt's in-node repair
succeeds (results are present) but the run terminates answering
`"I encountered an error Execution failed : e2"` — the stale error, not an
answer derived from the results.  Under `cfgStaleLoop`, after a direct
success following the failure the router branches **back** to
`generate_sql` (into error handling, not away from it), and the run stays
inside the generate/execute loop forever, never reaching `done`. -/
theorem c2_stale_error_supersession_bug :
    (run cfgStale 6 initM).node = GNode.done ∧
    (run cfgStale 6 initM).st.results.isSome = true ∧
    (run cfgStale 6 initM).st.error = some "Execution failed : e2" ∧
    (run cfgStale 6 initM).st.answer =
      some "I encountered an error Execution failed : e2" ∧
    (run cfgStaleLoop 4 initM).st.results.isSome = true ∧
    (run cfgStaleLoop 4 initM).node = GNode.generate_sql ∧
    (∀ n, (run cfgStaleLoop n initM).node = GNode.generate_sql ∨
      (run cfgStaleLoop n initM).node = GNode.execute_sql) := by
  refine ⟨by decide, by decide, by decide, by decide, by decide, by decide, ?_⟩
  have hinv : ∀ n m, C2Inv m → C2Inv (run cfgStaleLoop n m) := by
    intro n
    induction n with
    | zero => exact fun m h => h
    | succ n ih => exact fun m h => ih (step cfgStaleLoop m) (c2_inv_step m h)
  intro n
  rcases Nat.lt_or_ge n 4 with hn | hn
  · interval_cases n <;> decide
  · obtain ⟨k, rfl⟩ := Nat.exists_eq_add_of_le hn
    have h4 : C2Inv (run cfgStaleLoop 4 initM) :=
      ⟨Or.inl (by decide), by decide, by decide, by decide, by decide⟩
    have h := hinv k (run cfgStaleLoop 4 initM) h4
    rw [show 4 + k = k + 4 from Nat.add_comm 4 k, run_add]
    exact h.1

/-! ## Claim C10 — the evaluator can run on failed runs -/

/-- Claim C10: evaluation is gated only on `answer` and `sql_query` being
truthy.  In the all-failing run, the formatter's error short-circuit sets an
answer, the evaluator is then invoked with a reference string rendering the
absent results as `"None"`, and the terminal state carries both the error
and an evaluation score. -/
theorem c10_evaluator_on_failed_runs :
    (run cfgAllFail 5 initM).node = GNode.evaluate ∧
    (run cfgAllFail 5 initM).st.error = some "Execution failed : table missing" ∧
    (run cfgAllFail 5 initM).st.results = none ∧
    (run cfgAllFail 5 initM).st.answer =
      some "I encountered an error Execution failed : table missing" ∧
    (evaluate_node cfgAllFail.scorer (run cfgAllFail 5 initM).st).2 =
      some "SQL: SELECT A\nResults Retrieved after execution of Query: None" ∧
    (run cfgAllFail 6 initM).st.evaluation_score.isSome = true ∧
    (run cfgAllFail 6 initM).st.error = some "Execution failed : table missing" := by
  refine ⟨by decide, by decide, by decide, by decide, by decide, by decide, by decide⟩
